import Mathlib

/-!
Verification of the DubeBox key-value facade service (src/app.py).

The service exposes three Flask routes over a Redis backend:
  home      : GET /              returns a static status payload
  set_value : GET /set/k/v       r.set(key, value), echoes key and value
  get_value : GET /get/k         r.get(key), returns the value or null

The Redis backend store is modelled as a partial map from string keys to
string values; the handlers are modelled as explicit state-passing
functions on that store. A second model with a fallible backend embeds
the fact that redis-py raises a connection exception which the handlers
do not catch. The bounded LRU cache layer described by the specification
has no counterpart in src/ and is modelled from the spec where a claim
needs it.
-/

namespace DubeBox

/-- The state of the Redis backend: a partial map from keys to values.
Models the remote store that r.set and r.get operate on. -/
def Store := String → Option String

/-- Redis SET: store value v under key k (embeds r.set(key, value)). -/
def Store.set (s : Store) (k v : String) : Store :=
  fun q => if q = k then some v else s q

/-- Redis GET: look up key k, none when absent (embeds r.get(key)). -/
def Store.get (s : Store) (k : String) : Option String :=
  s k

/-- The environment the process reads configuration from: a partial map
from variable names to values (embeds os.getenv). -/
def Env := String → Option String

/-- The backend host (src/app.py line 8):
os.getenv with name REDIS_HOST and default localhost. -/
def redis_host (env : Env) : String :=
  (env "REDIS_HOST").getD "localhost"

/-- The backend port (src/app.py line 9):
int(os.getenv(...)) with name REDIS_PORT and default 6379; none models
the int() conversion raising on a non-numeric value. -/
def redis_port (env : Env) : Option Int :=
  match env "REDIS_PORT" with
  | none => some 6379
  | some s => s.toInt?

/-- Response of the home route: a message, a status string and an HTTP
status code. -/
structure HomeResponse where
  message : String
  status : String
  code : Nat
  deriving DecidableEq

/-- Response of the set route: a confirmation message and an HTTP status
code. -/
structure SetResponse where
  message : String
  code : Nat
  deriving DecidableEq

/-- Response of the get route: the echoed key, the value or null, and an
HTTP status code. -/
structure GetResponse where
  key : String
  value : Option String
  code : Nat
  deriving DecidableEq

/-- Handler of GET / (src/app.py lines 12-14): returns the static
welcome payload and leaves the store untouched. Flask jsonify returns
HTTP 200. -/
def home (s : Store) : Store × HomeResponse :=
  (s, { message := "Welcome to DubeBox 🚀", status := "running", code := 200 })

/-- Handler of GET /set/key/value (src/app.py lines 16-19): writes the
pair to Redis and returns the confirmation message of the f-string
with HTTP 200. No validation of the key takes place. -/
def set_value (s : Store) (key value : String) : Store × SetResponse :=
  (s.set key value,
   { message := "Stored " ++ key ++ " → " ++ value ++ " in Redis",
     code := 200 })

/-- Handler of GET /get/key (src/app.py lines 21-24): reads the key from
Redis and returns it with the value (null when absent) and HTTP 200. -/
def get_value (s : Store) (key : String) : Store × GetResponse :=
  (s, { key := key, value := s.get key, code := 200 })

/-- Modelled from the spec: the bounded LRU cache layer of spec
sections 3 and 4.2 is absent from src/. The entries list holds the
cached key-value pairs in recency order, most recently used first;
capacity is the configured maximum entry count. -/
structure LRUCache where
  entries : List (String × String)
  capacity : Nat

/-- Modelled from the spec: look a key up in the local mapping only. -/
def LRUCache.lookup (c : LRUCache) (k : String) : Option String :=
  (c.entries.find? (fun e => e.1 = k)).map Prod.snd

/-- Modelled from the spec: update or insert key k with value v at the
most-recent position; when inserting would exceed capacity, the
least-recently-used entry (the last in recency order) is evicted before
insertion. -/
def LRUCache.insertMRU (c : LRUCache) (k v : String) : LRUCache :=
  let kept := c.entries.filter (fun e => e.1 ≠ k)
  let room := if kept.length < c.capacity then kept else kept.dropLast
  { c with entries := (k, v) :: room }

/-- Modelled from the spec: cache set writes through to the backend
synchronously, then updates or inserts the local entry. -/
def cacheSet (backend : Store) (c : LRUCache) (k v : String) :
    Store × LRUCache :=
  (backend.set k v, c.insertMRU k v)

/-- Modelled from the spec: cache get checks the local mapping first; on
a hit the entry moves to the most-recent position and its value is
returned; on a local miss it delegates to the backend, inserts a backend
hit into the cache (possibly evicting), and returns a backend miss
without caching negatives. -/
def cacheGet (backend : Store) (c : LRUCache) (k : String) :
    LRUCache × Option String :=
  match c.entries.find? (fun e => e.1 = k) with
  | some e => (c.insertMRU k e.2, some e.2)
  | none =>
    match backend.get k with
    | some v => (c.insertMRU k v, some v)
    | none => (c, none)

/-- The empty backend used to run the capacity-2 eviction scenario. -/
def scenarioBackend0 : Store := fun _ => none

/-- The empty cache with capacity 2 used to run the eviction scenario. -/
def scenarioC0 : LRUCache := { entries := [], capacity := 2 }

/-- Scenario step 1: set(a, 1). -/
def scen1 : Store × LRUCache := cacheSet scenarioBackend0 scenarioC0 "a" "1"

/-- Scenario step 2: set(b, 2). -/
def scen2 : Store × LRUCache := cacheSet scen1.1 scen1.2 "b" "2"

/-- Scenario step 3: get(a), refreshing a in the recency order. -/
def scen3 : LRUCache × Option String := cacheGet scen2.1 scen2.2 "a"

/-- Scenario step 4: set(c, 3), which must evict b. -/
def scen4 : Store × LRUCache := cacheSet scen2.1 scen3.1 "c" "3"

/-- Failures of the Redis client: redis-py raises a connection error
when the backend is unreachable. -/
inductive BackendError where
  | connectionError
  deriving DecidableEq

/-- Handler of GET /get/key against a fallible backend: the source has
no try/except, so an exception raised by r.get(key) propagates out of
the handler; this is the Except-monad embedding of the same two lines
(src/app.py lines 21-24). -/
def get_value_exc (fetch : String → Except BackendError (Option String))
    (key : String) : Except BackendError GetResponse := do
  let value ← fetch key
  pure { key := key, value := value, code := 200 }

/-- The HTTP status the client observes: Flask turns an uncaught
exception into a 500 Internal Server Error response, and otherwise
the status of the handler response is sent. -/
def flask_status : Except BackendError GetResponse → Nat
  | .error _ => 500
  | .ok r => r.code

end DubeBox

namespace DubeBox

/-- C1: Read-your-write: for every key k and value v, performing
set(k, v) and then immediately get(k) on the same store returns v. -/
theorem c1_read_your_write (s : Store) (k v : String) :
    (get_value (set_value s k v).1 k).2.value = some v := by
  simp [get_value, set_value, Store.get, Store.set]

/-- C3: for every key absent from the store, get(k) returns the 200
response with the echoed key and a null value: a normal outcome, not an
error. -/
theorem c3_get_missing_is_null (s : Store) (k : String) (h : s k = none) :
    (get_value s k).2 = { key := k, value := none, code := 200 } := by
  simp [get_value, Store.get, h]

/-- Witness for C3 on the empty store and a concrete key. -/
theorem c3_get_missing_is_null_witness :
    ((fun _ => none : Store) "missing" = none) ∧
      (get_value (fun _ => none : Store) "missing").2 =
        { key := "missing", value := none, code := 200 } :=
  ⟨rfl, c3_get_missing_is_null (fun _ => none) "missing" rfl⟩

/-- C9: get never modifies the store: the read path is side-effect
free. -/
theorem c9_get_no_side_effect (s : Store) (k : String) :
    (get_value s k).1 = s := rfl

/-- C10: set(k, v) affects only the key k: for every distinct key
k', the value observed by get(k') is unchanged. -/
theorem c10_set_frame (s : Store) (k v k' : String) (h : k' ≠ k) :
    (get_value (set_value s k v).1 k').2.value = (get_value s k').2.value := by
  simp [get_value, set_value, Store.get, Store.set, h]

/-- Witness for C10 at a concrete store and concrete distinct keys. -/
theorem c10_set_frame_witness :
    ("b" ≠ "a") ∧
      (get_value (set_value (fun _ => none : Store) "a" "1").1 "b").2.value =
        (get_value (fun _ => none : Store) "b").2.value :=
  ⟨by decide, c10_set_frame (fun _ => none) "a" "1" "b" (by decide)⟩

/-- C2 fails on the code: the handler performs no validation, so at the
concrete input set of the empty key with value x on the empty store, the
response code is 200 rather than 400 and the store is changed. -/
theorem c2_counterexample :
    (set_value (fun _ => none : Store) "" "x").2.code = 200 ∧
      (200 : Nat) ≠ 400 ∧
      (set_value (fun _ => none : Store) "" "x").1 "" = some "x" ∧
      some "x" ≠ (none : Option String) := by
  refine ⟨rfl, by decide, ?_, by decide⟩
  simp [set_value, Store.set]

/-- C2 amended: a set request with an empty key is not rejected: the
handler writes the value under the empty key and returns 200, for every
store and value. -/
theorem c2_empty_key_accepted (s : Store) (v : String) :
    (set_value s "" v).2.code = 200 ∧ (set_value s "" v).1 "" = some v := by
  refine ⟨rfl, ?_⟩
  simp [set_value, Store.set]

/-- C5 fails on the code: the source reads REDIS_HOST, not BACKEND_HOST.
In an environment assigning BACKEND_HOST, the connection host is still
the default localhost, not the assigned value. -/
theorem c5_counterexample :
    (fun n => if n = "BACKEND_HOST" then some "backend.example" else none
        : Env) "BACKEND_HOST" = some "backend.example" ∧
      redis_host
        (fun n => if n = "BACKEND_HOST" then some "backend.example" else none)
        = "localhost" ∧
      "localhost" ≠ "backend.example" := by
  refine ⟨by decide, ?_, by decide⟩
  simp [redis_host]

/-- C5 amended: the service reads its backend configuration from the
environment variables REDIS_HOST (default localhost) and REDIS_PORT
(default 6379): an environment assigning them determines the host and,
through integer conversion, the port, and an environment lacking them
yields the defaults. -/
theorem c5_config_env (env : Env) (h p : String) :
    (env "REDIS_HOST" = some h → redis_host env = h) ∧
      (env "REDIS_HOST" = none → redis_host env = "localhost") ∧
      (env "REDIS_PORT" = some p → redis_port env = p.toInt?) ∧
      (env "REDIS_PORT" = none → redis_port env = some 6379) := by
  refine ⟨fun hh => ?_, fun hh => ?_, fun hp => ?_, fun hp => ?_⟩
  · simp [redis_host, hh]
  · simp [redis_host, hh]
  · simp [redis_port, hp]
  · simp [redis_port, hp]

/-- Witness for C5 amended in an environment assigning both variables. -/
theorem c5_config_env_witness :
    ((fun n => if n = "REDIS_HOST" then some "redis.local"
        else if n = "REDIS_PORT" then some "6380" else none : Env)
        "REDIS_HOST" = some "redis.local") ∧
      redis_host
        (fun n => if n = "REDIS_HOST" then some "redis.local"
          else if n = "REDIS_PORT" then some "6380" else none)
        = "redis.local" :=
  ⟨by decide,
   (c5_config_env
      (fun n => if n = "REDIS_HOST" then some "redis.local"
        else if n = "REDIS_PORT" then some "6380" else none)
      "redis.local" "6380").1 (by decide)⟩

/-- C6: when the backend is unreachable, get(k) surfaces the backend
error to the caller: the handler propagates the exception, Flask maps it
to a 500 server error, and the result is never the 200 response with a
null value that a miss would produce. -/
theorem c6_backend_error_surfaced
    (fetch : String → Except BackendError (Option String)) (k : String)
    (e : BackendError) (h : fetch k = .error e) :
    get_value_exc fetch k = .error e ∧
      flask_status (get_value_exc fetch k) = 500 ∧
      ∀ v : Option String,
        get_value_exc fetch k ≠ .ok { key := k, value := v, code := 200 } := by
  have hrun : get_value_exc fetch k = .error e := by
    simp [get_value_exc, h]
  refine ⟨hrun, by rw [hrun]; rfl, fun v hc => ?_⟩
  rw [hrun] at hc
  exact Except.noConfusion hc

/-- Witness for C6 with an always-unreachable backend. -/
theorem c6_backend_error_surfaced_witness :
    ((fun _ => .error .connectionError
        : String → Except BackendError (Option String)) "k"
        = .error .connectionError) ∧
      flask_status
        (get_value_exc (fun _ => .error .connectionError) "k") = 500 :=
  ⟨rfl,
   (c6_backend_error_surfaced (fun _ => .error .connectionError) "k"
      .connectionError rfl).2.1⟩

/-- C7: for every non-empty key k and value v, set(k, v) stores v under
k in the backend and returns a 200 response whose message contains both
k and v. -/
theorem c7_set_stores_and_echoes (s : Store) (k v : String) (h : k ≠ "") :
    (set_value s k v).1 k = some v ∧
      (set_value s k v).2.code = 200 ∧
      ∃ a b c : String,
        (set_value s k v).2.message = a ++ k ++ b ++ v ++ c := by
  refine ⟨?_, rfl, "Stored ", " → ", " in Redis", rfl⟩
  simp [set_value, Store.set]

/-- Witness for C7 at concrete non-empty key and value. -/
theorem c7_set_stores_and_echoes_witness :
    ("k" ≠ "") ∧
      (set_value (fun _ => none : Store) "k" "v").1 "k" = some "v" ∧
      (set_value (fun _ => none : Store) "k" "v").2.code = 200 :=
  ⟨by decide,
   (c7_set_stores_and_echoes (fun _ => none) "k" "v" (by decide)).1,
   (c7_set_stores_and_echoes (fun _ => none) "k" "v" (by decide)).2.1⟩

/-- C8: the welcome route always returns the same static 200 payload
with status running and leaves the store unchanged, for every store
state. -/
theorem c8_home_static (s : Store) :
    (home s).1 = s ∧
      (home s).2 = { message := "Welcome to DubeBox 🚀",
                     status := "running", code := 200 } ∧
      (home s).2.status = "running" ∧ (home s).2.code = 200 :=
  ⟨rfl, rfl, rfl, rfl⟩

/-- Inserting at the most-recent position keeps the entry count within
capacity: the filtered remainder is no longer than the original list,
and when it already fills the capacity its last element is dropped
before the new head is added. -/
lemma insertMRU_length_le (c : LRUCache) (k v : String)
    (hcap : 1 ≤ c.capacity) (h : c.entries.length ≤ c.capacity) :
    (c.insertMRU k v).entries.length ≤ c.capacity := by
  have hk : (c.entries.filter (fun e => e.1 ≠ k)).length ≤ c.entries.length :=
    List.length_filter_le _ _
  simp only [LRUCache.insertMRU]
  split
  · next hlt => simp only [List.length_cons]; omega
  · next hlt =>
      simp only [List.length_cons, List.length_dropLast]; omega

/-- A cache-get leaves the entry count within capacity in each of its
three cases: hit, miss with backend hit, and miss with backend miss. -/
lemma cacheGet_length_le (backend : Store) (c : LRUCache) (k : String)
    (hcap : 1 ≤ c.capacity) (h : c.entries.length ≤ c.capacity) :
    (cacheGet backend c k).1.entries.length ≤ c.capacity := by
  simp only [cacheGet]
  cases hf : c.entries.find? (fun e => e.1 = k) with
  | some e => exact insertMRU_length_le c k e.2 hcap h
  | none =>
      cases hb : backend.get k with
      | some v => exact insertMRU_length_le c k v hcap h
      | none => exact h

/-- C4: the cache layer entry count never exceeds the configured
capacity across set and get (for any positive capacity), and in the
capacity-2 scenario set(a,1), set(b,2), get(a), set(c,3) the key b is
evicted: the subsequent get(b) misses the cache and is answered by the
backend. -/
theorem c4_lru_capacity_and_eviction :
    (∀ (backend : Store) (c : LRUCache) (k v : String),
        1 ≤ c.capacity → c.entries.length ≤ c.capacity →
        (cacheSet backend c k v).2.entries.length ≤ c.capacity) ∧
      (∀ (backend : Store) (c : LRUCache) (k : String),
        1 ≤ c.capacity → c.entries.length ≤ c.capacity →
        (cacheGet backend c k).1.entries.length ≤ c.capacity) ∧
      scen4.2.lookup "b" = none ∧
      (cacheGet scen4.1 scen4.2 "b").2 = some "2" := by
  refine ⟨fun backend c k v hcap h => ?_, cacheGet_length_le, ?_, ?_⟩
  · exact insertMRU_length_le c k v hcap h
  · decide
  · decide

/-- Witness for C4 instantiating the capacity bounds at the concrete
scenario backend and cache. -/
theorem c4_lru_capacity_and_eviction_witness :
    1 ≤ scenarioC0.capacity ∧
      scenarioC0.entries.length ≤ scenarioC0.capacity ∧
      (cacheSet scenarioBackend0 scenarioC0 "a" "1").2.entries.length ≤
        scenarioC0.capacity ∧
      (cacheGet scenarioBackend0 scenarioC0 "a").1.entries.length ≤
        scenarioC0.capacity :=
  ⟨by decide, by decide,
   c4_lru_capacity_and_eviction.1 scenarioBackend0 scenarioC0 "a" "1"
     (by decide) (by decide),
   c4_lru_capacity_and_eviction.2.1 scenarioBackend0 scenarioC0 "a"
     (by decide) (by decide)⟩

end DubeBox
